import Mathlib

/-
Verification of the Visonic alarm-control-panel entity adapter
(custom_components/visonic/alarm_control_panel.py).

The adapter is shallowly embedded: the external client object is modelled
as a record of the responses its query methods return, side-effecting
client calls are recorded in an explicit trace, and Python exceptions are
modelled with an Except monad.  Python resolves global names at call time,
so the module-level name environment is embedded as a list of the names
bound at module level; evaluating a name not in that list raises NameError,
exactly as CPython does.
-/

namespace Visonic

/-- Home Assistant state constant, value as in homeassistant.const. -/
def STATE_ALARM_DISARMED : String := "disarmed"

/-- Home Assistant state constant, value as in homeassistant.const. -/
def STATE_ALARM_ARMED_HOME : String := "armed_home"

/-- Home Assistant state constant, value as in homeassistant.const. -/
def STATE_ALARM_ARMED_AWAY : String := "armed_away"

/-- Home Assistant state constant, value as in homeassistant.const. -/
def STATE_ALARM_ARMING : String := "arming"

/-- Home Assistant state constant, value as in homeassistant.const. -/
def STATE_ALARM_PENDING : String := "pending"

/-- Home Assistant state constant, value as in homeassistant.const. -/
def STATE_ALARM_TRIGGERED : String := "triggered"

/-- Home Assistant state constant, value as in homeassistant.const. -/
def STATE_UNKNOWN : String := "unknown"

/-- The external client collaborator, modelled as the responses its methods
return during one interaction.  `getPanelStatusCode` is `Option Int` because
the Python code also guards against the method returning `None`
(sensor_bypass line 298).  `decode_code` takes an optional code, matching
the Python calls that pass either a string or `None`. -/
structure VisonicClient where
  isPanelConnected : Bool
  isSirenActive : Bool
  getPanelStatusCode : Option Int
  isCodeRequired : Bool
  isArmWithoutCode : Bool
  isArmHomeInstant : Bool
  isArmAwayInstant : Bool
  sendCommandResult : Bool
  sendBypassResult : Bool
  decode_code : Option String → String

/-- Python exceptions that the adapter code can raise.  Exception messages
are not modelled except for the name carried by NameError and the key of
KeyError, which the claims are about. -/
inductive PyError where
  | nameError (nm : String)
  | homeAssistantError
  | keyError (key : String)
  | unknownUser
  | unauthorized
deriving DecidableEq, Repr

/-- One side-effecting call made on the client object. -/
inductive ClientCall where
  | sendCommand (command : String) (pin : String)
  | sendBypass (devid : Int) (bypass : Bool) (pin : String)
  | createWarningMessage (kind : String) (message : String)
deriving DecidableEq, Repr

/-- The names bound at module level in alarm_control_panel.py: the imports
of lines 3 to 45 plus the module-level definitions (lines 48, 56, 58, 73).
This is the environment Python consults when the function bodies evaluate a
global name. -/
def moduleGlobalNames : List String :=
  ["timedelta", "logging", "vol", "POLICY_CONTROL", "alarm",
   "SUPPORT_ALARM_ARM_AWAY", "SUPPORT_ALARM_ARM_HOME", "SUPPORT_ALARM_ARM_NIGHT",
   "ConfigEntry", "ATTR_CODE", "ATTR_ENTITY_ID",
   "STATE_ALARM_ARMED_AWAY", "STATE_ALARM_ARMED_HOME", "STATE_ALARM_ARMING",
   "STATE_ALARM_DISARMED", "STATE_ALARM_PENDING", "STATE_ALARM_TRIGGERED",
   "STATE_UNKNOWN", "HomeAssistant", "valid_entity_id", "HomeAssistantError",
   "Unauthorized", "UnknownUser", "cv", "async_dispatcher_connect",
   "VisonicClient", "ATTR_BYPASS", "DOMAIN", "DOMAINCLIENT", "DOMAINDATA",
   "VISONIC_UNIQUE_NAME", "VISONIC_UPDATE_STATE_DISPATCHER", "NOTIFICATION_ID",
   "NOTIFICATION_TITLE", "ALARM_SERVICE_SCHEMA", "_LOGGER",
   "async_setup_entry", "VisonicAlarm"]

/-- Python global-name resolution: a name not bound at module level (nor a
builtin, which none of the names used here are) raises NameError. -/
def resolveGlobal (nm : String) : Except PyError Unit :=
  if moduleGlobalNames.contains nm then Except.ok () else Except.error (PyError.nameError nm)

/-- Embedding of the statement
`self._client.createWarningMessage(AvailableNotifications.KIND, message)`:
Python first evaluates the name AvailableNotifications; only if that
succeeds is the client method called. -/
def warnBranch (kind message : String) : Except PyError Unit × List ClientCall :=
  match resolveGlobal "AvailableNotifications" with
  | Except.error e => (Except.error e, [])
  | Except.ok _ => (Except.ok (), [ClientCall.createWarningMessage kind message])

/-- A warning branch that, when it completes, is followed by `return False`
(the shape of every failure branch of sensor_bypass). -/
def warnFalse (kind message : String) : Except PyError Bool × List ClientCall :=
  match warnBranch kind message with
  | (Except.error e, t) => (Except.error e, t)
  | (Except.ok _, t) => (Except.ok false, t)

/-- VisonicAlarm.isPanelConnected (lines 120 to 126): False when the stored
client is None, else the client answer. -/
def isPanelConnected (client : Option VisonicClient) : Bool :=
  match client with
  | none => false
  | some c => c.isPanelConnected

/-- The `_mystate` computation of VisonicAlarm.update (lines 165 to 196):
start from STATE_UNKNOWN; when connected, TRIGGERED if the siren is active,
otherwise the armcode if-chain of lines 187 to 196.  The attribute-merging
tail of update (lines 198 to 212) does not touch `_mystate` and is not
modelled here. -/
def update_mystate (client : Option VisonicClient) : String :=
  match client with
  | none => STATE_UNKNOWN
  | some c =>
    if c.isPanelConnected then
      if c.isSirenActive then STATE_ALARM_TRIGGERED
      else
        let armcode := c.getPanelStatusCode
        if armcode = some 0 ∨ armcode = some 6 then STATE_ALARM_DISARMED
        else if armcode = some 1 ∨ armcode = some 3 then STATE_ALARM_PENDING
        else if armcode = some 2 then STATE_ALARM_ARMING
        else if armcode = some 4 then STATE_ALARM_ARMED_HOME
        else if armcode = some 5 then STATE_ALARM_ARMED_AWAY
        else STATE_UNKNOWN
    else STATE_UNKNOWN

/-- The lookup table exactly as claim C1 words it: 0 or 6 to DISARMED,
1 or 3 to PENDING, 2 to ARMING, 4 to ARMED_HOME, 5 to ARMED_AWAY, every
other value to UNKNOWN. -/
def claimStateTable (armcode : Option Int) : String :=
  if armcode = some 0 ∨ armcode = some 6 then STATE_ALARM_DISARMED
  else if armcode = some 1 ∨ armcode = some 3 then STATE_ALARM_PENDING
  else if armcode = some 2 then STATE_ALARM_ARMING
  else if armcode = some 4 then STATE_ALARM_ARMED_HOME
  else if armcode = some 5 then STATE_ALARM_ARMED_AWAY
  else STATE_UNKNOWN

/-- VisonicAlarm.send_alarm_command (lines 245 to 252).  It sends when a
required code is present or no code is required; the pin is
decode_code(code) when a code is required, else the empty string.  A False
result from sendCommand, and a missing required code, reach a
createWarningMessage statement whose first argument evaluates the global
name AvailableNotifications. -/
def send_alarm_command (c : VisonicClient) (message : String) (command : String)
    (code : Option String) : Except PyError Unit × List ClientCall :=
  let codeRequired := c.isCodeRequired
  if (codeRequired && code.isSome) || !codeRequired then
    let pcode := if codeRequired then c.decode_code code else ""
    if c.sendCommandResult then
      (Except.ok (), [ClientCall.sendCommand command pcode])
    else
      match warnBranch "COMMAND_NOT_SENT"
          ("Visonic Alarm Panel: Error in sending " ++ message ++ " Command, not sent to panel") with
      | (r, t) => (r, ClientCall.sendCommand command pcode :: t)
  else
    warnBranch "COMMAND_NOT_SENT"
      ("Visonic Alarm Panel: Error in sending " ++ message ++ " Command, an alarm code is required")

/-- VisonicAlarm.alarm_disarm (lines 254 to 258). -/
def alarm_disarm (client : Option VisonicClient) (code : Option String) :
    Except PyError Unit × List ClientCall :=
  match client with
  | none => (Except.error PyError.homeAssistantError, [])
  | some c =>
    if c.isPanelConnected then send_alarm_command c "Disarm" "disarmed" code
    else (Except.error PyError.homeAssistantError, [])

/-- VisonicAlarm.alarm_arm_night (lines 260 to 264). -/
def alarm_arm_night (client : Option VisonicClient) (code : Option String) :
    Except PyError Unit × List ClientCall :=
  match client with
  | none => (Except.error PyError.homeAssistantError, [])
  | some c =>
    if c.isPanelConnected then send_alarm_command c "Arm Night" "stayinstant" code
    else (Except.error PyError.homeAssistantError, [])

/-- VisonicAlarm.alarm_arm_home (lines 266 to 271). -/
def alarm_arm_home (client : Option VisonicClient) (code : Option String) :
    Except PyError Unit × List ClientCall :=
  match client with
  | none => (Except.error PyError.homeAssistantError, [])
  | some c =>
    if c.isPanelConnected then
      send_alarm_command c "Arm Home" (if c.isArmHomeInstant then "stayinstant" else "stay") code
    else (Except.error PyError.homeAssistantError, [])

/-- VisonicAlarm.alarm_arm_away (lines 273 to 278). -/
def alarm_arm_away (client : Option VisonicClient) (code : Option String) :
    Except PyError Unit × List ClientCall :=
  match client with
  | none => (Except.error PyError.homeAssistantError, [])
  | some c =>
    if c.isPanelConnected then
      send_alarm_command c "Arm Away" (if c.isArmAwayInstant then "armedinstant" else "armed") code
    else (Except.error PyError.homeAssistantError, [])

/-- The sendCommand calls recorded in a trace, as command and pin pairs. -/
def sendCommandCalls (t : List ClientCall) : List (String × String) :=
  t.filterMap (fun call =>
    match call with
    | ClientCall.sendCommand cmd pin => some (cmd, pin)
    | _ => none)

/-- The condition of line 247 under which send_alarm_command sends. -/
def shouldSend (c : VisonicClient) (code : Option String) : Bool :=
  (c.isCodeRequired && code.isSome) || !c.isCodeRequired

/-- The pin that send_alarm_command passes to sendCommand (line 248). -/
def sentPin (c : VisonicClient) (code : Option String) : String :=
  if c.isCodeRequired then c.decode_code code else ""

/-- The sendCommand calls one arm/disarm entry point makes, as a function
of its inputs: none when disconnected or a required code is missing, and
exactly one with the given command otherwise. -/
def dispatched (client : Option VisonicClient) (code : Option String)
    (command : VisonicClient → String) : List (String × String) :=
  match client with
  | none => []
  | some c =>
    if c.isPanelConnected && shouldSend c code then [(command c, sentPin c code)] else []

/-- Whether a run outcome is a raised HomeAssistantError. -/
def raisesHAError (r : Except PyError Unit × List ClientCall) : Bool :=
  match r.1 with
  | Except.error PyError.homeAssistantError => true
  | _ => false

/-- A Home Assistant entity state object as sensor_bypass reads it: only
its attribute mapping matters, and the only attribute read is the integer
valued "visonic device". -/
structure HAState where
  attributes : List (String × Int)

/-- Python dictionary subscript `state.attributes[key]` as an optional
lookup; a missing key is a KeyError at the use site. -/
def lookupAttr (st : HAState) (key : String) : Option Int :=
  (st.attributes.find? (fun p => p.1 = key)).map (fun p => p.2)

/-- VisonicAlarm.sensor_bypass (lines 293 to 319).  `states` is
hass.states.get.  Armcode None or -1, a missing entity state, a device id
out of 1..64 and a non-disarmed panel all reach a createWarningMessage
statement whose first argument evaluates the global name
AvailableNotifications, after which the function would return False. -/
def sensor_bypass (c : VisonicClient) (states : String → Option HAState)
    (eid : String) (bypass : Bool) (code : String) :
    Except PyError Bool × List ClientCall :=
  match c.getPanelStatusCode with
  | none => warnFalse "CONNECTION_PROBLEM" "Attempt to bypass sensor, check panel connection"
  | some armcode =>
    if armcode = -1 then
      warnFalse "CONNECTION_PROBLEM" "Attempt to bypass sensor, check panel connection"
    else if armcode = 0 then
      match states eid with
      | some mybpstate =>
        match lookupAttr mybpstate "visonic device" with
        | none => (Except.error (PyError.keyError "visonic device"), [])
        | some devid =>
          if devid ≥ 1 ∧ devid ≤ 64 then
            (Except.ok c.sendBypassResult,
             [ClientCall.sendBypass devid bypass (c.decode_code (some code))])
          else
            warnFalse "BYPASS_PROBLEM"
              ("Attempt to bypass sensor, incorrect device " ++ toString devid
                ++ " for entity " ++ eid)
      | none =>
        warnFalse "BYPASS_PROBLEM"
          ("Attempt to bypass sensor, unknown device state for entity " ++ eid)
    else
      warnFalse "BYPASS_PROBLEM"
        "Visonic Alarm Panel: Attempt to bypass sensor, panel needs to be in the disarmed state"

/-- A Home Assistant user as the permission check of line 352 sees it. -/
structure HAUser where
  checkEntity : String → Bool

/-- The slice of the hass object that service_sensor_bypass consults. -/
structure Hass where
  states : String → Option HAState
  validEntityId : String → Bool
  getUser : String → Option HAUser

/-- The data and context of one alarm_sensor_bypass service call.  `userId`
is None when call.context.user_id is falsy. -/
structure ServiceCall where
  dataIsDict : Bool
  data_entity_id : Option String
  data_bypass : Option Bool
  data_code : Option String
  userId : Option String

/-- Entity-id normalisation of lines 338 to 339. -/
def expandEntityId (rawEid : String) : String :=
  if rawEid.startsWith "binary_sensor." then rawEid else "binary_sensor." ++ rawEid

/-- VisonicAlarm.service_sensor_bypass (lines 325 to 371): connection
guard, call.data shape check, entity-id extraction and validation, the
permission check against the raw entity id, then delegation to
sensor_bypass with the schema defaults bypass=False and code="".  The
result of sensor_bypass is discarded (line 365), but an exception it
raises propagates. -/
def service_sensor_bypass (client : Option VisonicClient) (hass : Hass)
    (call : ServiceCall) : Except PyError Unit × List ClientCall :=
  match client with
  | none => (Except.error PyError.homeAssistantError, [])
  | some c =>
    if c.isPanelConnected then
      if call.dataIsDict then
        match call.data_entity_id with
        | some rawEid =>
          let eid := expandEntityId rawEid
          if hass.validEntityId eid then
            let runBypass : Except PyError Unit × List ClientCall :=
              match sensor_bypass c hass.states eid (call.data_bypass.getD false)
                  (call.data_code.getD "") with
              | (Except.error e, t) => (Except.error e, t)
              | (Except.ok _, t) => (Except.ok (), t)
            match call.userId with
            | none => runBypass
            | some uid =>
              match hass.getUser uid with
              | none => (Except.error PyError.unknownUser, [])
              | some user =>
                if user.checkEntity rawEid then runBypass
                else (Except.error PyError.unauthorized, [])
          else
            warnBranch "BYPASS_PROBLEM" ("Attempt to bypass sensor, invalid entity " ++ eid)
        | none => warnBranch "BYPASS_PROBLEM" "Attempt to bypass sensor but entity not defined"
      else warnBranch "BYPASS_PROBLEM" "Attempt to bypass sensor but entity not defined"
    else (Except.error PyError.homeAssistantError, [])

/-- The sendBypass calls recorded in a trace. -/
def sendBypassCalls (t : List ClientCall) : List (Int × Bool × String) :=
  t.filterMap (fun call =>
    match call with
    | ClientCall.sendBypass devid bypass pin => some (devid, bypass, pin)
    | _ => none)

/-- A concrete client used to instantiate theorems with hypotheses. -/
def demoClient : VisonicClient :=
  { isPanelConnected := true
    isSirenActive := false
    getPanelStatusCode := some 4
    isCodeRequired := true
    isArmWithoutCode := false
    isArmHomeInstant := false
    isArmAwayInstant := false
    sendCommandResult := true
    sendBypassResult := true
    decode_code := fun o => o.getD "" }

/-- With the panel connected and the siren inactive, the `_mystate` value
is the armcode lookup table. -/
lemma update_state_table (c : VisonicClient)
    (hconn : c.isPanelConnected = true) (hsiren : c.isSirenActive = false) :
    update_mystate (some c) = claimStateTable c.getPanelStatusCode := by
  simp only [update_mystate, claimStateTable, hconn, hsiren, if_true, Bool.false_eq_true,
    if_false]

/-- The armcode lookup table never yields TRIGGERED. -/
lemma claimStateTable_ne_triggered (armcode : Option Int) :
    claimStateTable armcode ≠ STATE_ALARM_TRIGGERED := by
  unfold claimStateTable
  split_ifs <;> decide

/-- C1: when the panel is connected and the siren is not active, update()
translates the armcode through the fixed lookup table: 0 or 6 to DISARMED,
1 or 3 to PENDING, 2 to ARMING, 4 to ARMED_HOME, 5 to ARMED_AWAY, and
leaves the state UNKNOWN for every other value. -/
theorem C1_state_lookup_table (c : VisonicClient)
    (hconn : c.isPanelConnected = true) (hsiren : c.isSirenActive = false) :
    update_mystate (some c) = claimStateTable c.getPanelStatusCode :=
  update_state_table c hconn hsiren

/-- Witness for C1 at a concrete connected, siren-inactive client with
armcode 4. -/
theorem C1_state_lookup_table_witness :
    update_mystate (some demoClient) = claimStateTable (some 4) :=
  C1_state_lookup_table demoClient rfl rfl

/-- The name AvailableNotifications is not bound at module level, so every
warning branch raises NameError before any client call is made. -/
lemma warnBranch_eq (kind message : String) :
    warnBranch kind message = (Except.error (PyError.nameError "AvailableNotifications"), []) :=
  rfl

/-- Likewise for the failure branches of sensor_bypass. -/
lemma warnFalse_eq (kind message : String) :
    warnFalse kind message = (Except.error (PyError.nameError "AvailableNotifications"), []) :=
  rfl

/-- send_alarm_command makes the single sendCommand call of line 249 when
the condition of line 247 holds, and none otherwise. -/
lemma send_alarm_command_calls (c : VisonicClient) (message command : String)
    (code : Option String) :
    sendCommandCalls (send_alarm_command c message command code).2
      = if shouldSend c code then [(command, sentPin c code)] else [] := by
  simp only [send_alarm_command, shouldSend, sentPin]
  cases h : ((c.isCodeRequired && code.isSome) || !c.isCodeRequired) with
  | false => simp [h, warnBranch_eq, sendCommandCalls]
  | true => cases hs : c.sendCommandResult <;> simp [h, hs, warnBranch_eq, sendCommandCalls]

/-- A list that is a singleton or empty by cases has length at most one. -/
lemma ite_single_length_le {α : Type} (b : Bool) (x : α) :
    (if b = true then [x] else ([] : List α)).length ≤ 1 := by
  cases b <;> simp

/-- send_alarm_command never raises HomeAssistantError: its only raise is
the NameError of the warning branches. -/
lemma send_alarm_command_no_HAError (c : VisonicClient) (message command : String)
    (code : Option String) :
    raisesHAError (send_alarm_command c message command code) = false := by
  simp only [send_alarm_command]
  cases h : ((c.isCodeRequired && code.isSome) || !c.isCodeRequired) with
  | false => simp [h, warnBranch_eq, raisesHAError]
  | true => cases hs : c.sendCommandResult <;> simp [h, hs, warnBranch_eq, raisesHAError]

/-- C4 as stated is false: with the panel connected, a code required and no
code supplied, alarm_disarm makes zero sendCommand calls, not exactly
one. -/
theorem C4_counterexample :
    (sendCommandCalls (alarm_disarm (some demoClient) none).2).length ≠ 1 := by
  decide

/-- C4 amended: each arm/disarm operation calls sendCommand at most once,
namely exactly once with the corresponding command string (disarm maps to
disarmed, arm night to stayinstant, arm home to stay or stayinstant per the
isArmHomeInstant flag, arm away to armed or armedinstant per the
isArmAwayInstant flag) when the panel is connected and either no code is
required or a code was provided; otherwise it makes no sendCommand call. -/
theorem C4_command_dispatch (client : Option VisonicClient) (code : Option String) :
    sendCommandCalls (alarm_disarm client code).2 = dispatched client code (fun _ => "disarmed")
  ∧ sendCommandCalls (alarm_arm_night client code).2
      = dispatched client code (fun _ => "stayinstant")
  ∧ sendCommandCalls (alarm_arm_home client code).2
      = dispatched client code (fun c => if c.isArmHomeInstant then "stayinstant" else "stay")
  ∧ sendCommandCalls (alarm_arm_away client code).2
      = dispatched client code (fun c => if c.isArmAwayInstant then "armedinstant" else "armed") := by
  cases client with
  | none => exact ⟨rfl, rfl, rfl, rfl⟩
  | some c =>
    cases h : c.isPanelConnected with
    | false =>
      refine ⟨?_, ?_, ?_, ?_⟩ <;>
        simp [alarm_disarm, alarm_arm_night, alarm_arm_home, alarm_arm_away, dispatched, h,
          sendCommandCalls]
    | true =>
      refine ⟨?_, ?_, ?_, ?_⟩ <;>
        simp [alarm_disarm, alarm_arm_night, alarm_arm_home, alarm_arm_away, dispatched, h,
          send_alarm_command_calls]

/-- C7: each of the four arm/disarm entry points raises HomeAssistantError
exactly when the panel is not connected (stored client None, or the client
reports not connected); with a connected client the guard raises nothing
and the run is exactly the send_alarm_command path. -/
theorem C7_connection_guard (client : Option VisonicClient) (code : Option String) :
    (raisesHAError (alarm_disarm client code) = !(isPanelConnected client)
  ∧ raisesHAError (alarm_arm_night client code) = !(isPanelConnected client)
  ∧ raisesHAError (alarm_arm_home client code) = !(isPanelConnected client)
  ∧ raisesHAError (alarm_arm_away client code) = !(isPanelConnected client))
  ∧ (∀ c : VisonicClient,
      alarm_disarm (some { c with isPanelConnected := true }) code
        = send_alarm_command { c with isPanelConnected := true } "Disarm" "disarmed" code
    ∧ alarm_arm_night (some { c with isPanelConnected := true }) code
        = send_alarm_command { c with isPanelConnected := true } "Arm Night" "stayinstant" code
    ∧ alarm_arm_home (some { c with isPanelConnected := true }) code
        = send_alarm_command { c with isPanelConnected := true } "Arm Home"
            (if c.isArmHomeInstant then "stayinstant" else "stay") code
    ∧ alarm_arm_away (some { c with isPanelConnected := true }) code
        = send_alarm_command { c with isPanelConnected := true } "Arm Away"
            (if c.isArmAwayInstant then "armedinstant" else "armed") code) := by
  constructor
  · cases client with
    | none => exact ⟨rfl, rfl, rfl, rfl⟩
    | some c =>
      cases h : c.isPanelConnected with
      | false =>
        refine ⟨?_, ?_, ?_, ?_⟩ <;>
          simp [alarm_disarm, alarm_arm_night, alarm_arm_home, alarm_arm_away,
            isPanelConnected, h, raisesHAError]
      | true =>
        refine ⟨?_, ?_, ?_, ?_⟩ <;>
          simp [alarm_disarm, alarm_arm_night, alarm_arm_home, alarm_arm_away,
            isPanelConnected, h, send_alarm_command_no_HAError]
  · intro c
    exact ⟨rfl, rfl, rfl, rfl⟩

/-- C9: no retry — a single invocation of any of the four arm/disarm entry
points makes at most one sendCommand call, whatever the client returns. -/
theorem C9_no_retry (client : Option VisonicClient) (code : Option String) :
    (sendCommandCalls (alarm_disarm client code).2).length ≤ 1
  ∧ (sendCommandCalls (alarm_arm_night client code).2).length ≤ 1
  ∧ (sendCommandCalls (alarm_arm_home client code).2).length ≤ 1
  ∧ (sendCommandCalls (alarm_arm_away client code).2).length ≤ 1 := by
  cases client with
  | none =>
    refine ⟨?_, ?_, ?_, ?_⟩ <;>
      simp [alarm_disarm, alarm_arm_night, alarm_arm_home, alarm_arm_away, sendCommandCalls]
  | some c =>
    cases h : c.isPanelConnected with
    | false =>
      refine ⟨?_, ?_, ?_, ?_⟩ <;>
        simp [alarm_disarm, alarm_arm_night, alarm_arm_home, alarm_arm_away, h, sendCommandCalls]
    | true =>
      refine ⟨?_, ?_, ?_, ?_⟩ <;>
        simp [alarm_disarm, alarm_arm_night, alarm_arm_home, alarm_arm_away, h,
          send_alarm_command_calls, ite_single_length_le]

/-- C5 as stated is false: with the siren inactive, no armcode value at all
makes update() set the state to TRIGGERED. -/
theorem C5_counterexample :
    ¬ ∃ a : Option Int,
        update_mystate (some { demoClient with getPanelStatusCode := a })
          = STATE_ALARM_TRIGGERED := by
  rintro ⟨a, h⟩
  have htab := update_state_table { demoClient with getPanelStatusCode := a } rfl rfl
  exact claimStateTable_ne_triggered _ (htab.symm.trans h)

/-- C5 amended: with the panel connected, update() sets TRIGGERED exactly
when the siren is active; the arm code never determines the TRIGGERED
state. -/
theorem C5_triggered_iff_siren (c : VisonicClient) (hconn : c.isPanelConnected = true) :
    update_mystate (some c) = STATE_ALARM_TRIGGERED ↔ c.isSirenActive = true := by
  constructor
  · intro h
    cases hs : c.isSirenActive with
    | true => rfl
    | false =>
      have htab := update_state_table c hconn hs
      exact absurd (htab.symm.trans h) (claimStateTable_ne_triggered _)
  · intro hs
    simp [update_mystate, hconn, hs]

/-- Witness for the amended C5 at a concrete connected client with the
siren active. -/
theorem C5_triggered_iff_siren_witness :
    update_mystate (some { demoClient with isSirenActive := true }) = STATE_ALARM_TRIGGERED
      ↔ ({ demoClient with isSirenActive := true } : VisonicClient).isSirenActive = true :=
  C5_triggered_iff_siren { demoClient with isSirenActive := true } rfl

/-- An entity-state table holding one sensor whose visonic device id is
in range. -/
def demoStates : String → Option HAState :=
  fun _ => some { attributes := [("visonic device", 1)] }

/-- An entity-state table holding one sensor whose visonic device id is
out of range. -/
def demoStatesOutOfRange : String → Option HAState :=
  fun _ => some { attributes := [("visonic device", 0)] }

/-- A concrete hass environment for instantiating theorems. -/
def demoHass : Hass :=
  { states := demoStates
    validEntityId := fun _ => true
    getUser := fun _ => none }

/-- C2 is the intended behaviour but the code slips: with the panel armed
away (armcode 5) and likewise with armcode None, sensor_bypass indeed never
calls sendBypass, but instead of returning False it raises NameError while
evaluating the undefined name AvailableNotifications. -/
theorem C2_bypass_when_armed_raises :
    sensor_bypass { demoClient with getPanelStatusCode := some 5 } demoStates
        "binary_sensor.visonic_z01" true "1234"
      = (Except.error (PyError.nameError "AvailableNotifications"), [])
  ∧ sensor_bypass { demoClient with getPanelStatusCode := none } demoStates
        "binary_sensor.visonic_z01" true "1234"
      = (Except.error (PyError.nameError "AvailableNotifications"), []) :=
  ⟨rfl, rfl⟩

/-- C8 is the intended behaviour but the code slips: with the panel
disarmed and a known entity state, an in-range device id (here 1) leads to
the sendBypass call whose result is returned, while an out-of-range device
id (here 0) does not call sendBypass but raises NameError on the undefined
name AvailableNotifications instead of returning False. -/
theorem C8_device_range_check :
    sensor_bypass { demoClient with getPanelStatusCode := some 0 } demoStates
        "binary_sensor.visonic_z01" true "1234"
      = (Except.ok true, [ClientCall.sendBypass 1 true "1234"])
  ∧ sensor_bypass { demoClient with getPanelStatusCode := some 0 } demoStatesOutOfRange
        "binary_sensor.visonic_z01" true "1234"
      = (Except.error (PyError.nameError "AvailableNotifications"), []) :=
  ⟨rfl, rfl⟩

/-- C3: the name AvailableNotifications is bound nowhere in the module, so
every warning branch raises NameError before any warning is created: the
missing-required-code and sendCommand-returned-False branches of
send_alarm_command, every failure branch of sensor_bypass (armcode None,
-1 or otherwise non-zero; unknown entity state; device id out of range),
and every failure branch of service_sensor_bypass (call data not a dict,
entity id absent, entity id invalid). -/
theorem C3_warning_branches_raise_nameError :
    moduleGlobalNames.contains "AvailableNotifications" = false
  ∧ (∀ kind message : String,
      warnBranch kind message
        = (Except.error (PyError.nameError "AvailableNotifications"), []))
  ∧ (∀ (c : VisonicClient) (message command : String),
      c.isCodeRequired = true →
        (send_alarm_command c message command none).1
          = Except.error (PyError.nameError "AvailableNotifications"))
  ∧ (∀ (c : VisonicClient) (message command : String) (code : Option String),
      c.sendCommandResult = false →
        (send_alarm_command c message command code).1
          = Except.error (PyError.nameError "AvailableNotifications"))
  ∧ (∀ (c : VisonicClient) (states : String → Option HAState) (eid : String)
        (bypass : Bool) (code : String),
      (∀ a : Int, c.getPanelStatusCode = some a → a ≠ 0) →
        (sensor_bypass c states eid bypass code).1
          = Except.error (PyError.nameError "AvailableNotifications"))
  ∧ (∀ (c : VisonicClient) (states : String → Option HAState) (eid : String)
        (bypass : Bool) (code : String),
      c.getPanelStatusCode = some 0 → states eid = none →
        (sensor_bypass c states eid bypass code).1
          = Except.error (PyError.nameError "AvailableNotifications"))
  ∧ (∀ (c : VisonicClient) (states : String → Option HAState) (eid : String)
        (bypass : Bool) (code : String) (st : HAState) (devid : Int),
      c.getPanelStatusCode = some 0 → states eid = some st →
      lookupAttr st "visonic device" = some devid → ¬(devid ≥ 1 ∧ devid ≤ 64) →
        (sensor_bypass c states eid bypass code).1
          = Except.error (PyError.nameError "AvailableNotifications"))
  ∧ (∀ (client : Option VisonicClient) (hass : Hass) (call : ServiceCall),
      isPanelConnected client = true → call.dataIsDict = false →
        (service_sensor_bypass client hass call).1
          = Except.error (PyError.nameError "AvailableNotifications"))
  ∧ (∀ (client : Option VisonicClient) (hass : Hass) (call : ServiceCall),
      isPanelConnected client = true → call.dataIsDict = true →
      call.data_entity_id = none →
        (service_sensor_bypass client hass call).1
          = Except.error (PyError.nameError "AvailableNotifications"))
  ∧ (∀ (client : Option VisonicClient) (hass : Hass) (call : ServiceCall)
        (rawEid : String),
      isPanelConnected client = true → call.dataIsDict = true →
      call.data_entity_id = some rawEid →
      hass.validEntityId (expandEntityId rawEid) = false →
        (service_sensor_bypass client hass call).1
          = Except.error (PyError.nameError "AvailableNotifications")) := by
  refine ⟨by decide, warnBranch_eq, ?_, ?_, ?_, ?_, ?_, ?_, ?_, ?_⟩
  · intro c message command h
    simp [send_alarm_command, h, warnBranch_eq]
  · intro c message command code h
    cases hcond : ((c.isCodeRequired && code.isSome) || !c.isCodeRequired) <;>
      simp [send_alarm_command, hcond, h, warnBranch_eq]
  · intro c states eid bypass code hne
    cases hc : c.getPanelStatusCode with
    | none => simp [sensor_bypass, hc, warnFalse_eq]
    | some a =>
      have ha := hne a hc
      by_cases h1 : a = -1 <;> simp [sensor_bypass, hc, h1, ha, warnFalse_eq]
  · intro c states eid bypass code h0 hstate
    simp [sensor_bypass, h0, hstate, warnFalse_eq]
  · intro c states eid bypass code st devid h0 hstate hattr hrange
    simp [sensor_bypass, h0, hstate, hattr, hrange, warnFalse_eq]
  · intro client hass call hconn hdict
    cases client with
    | none => simp [isPanelConnected] at hconn
    | some c =>
      simp only [isPanelConnected] at hconn
      simp [service_sensor_bypass, hconn, hdict, warnBranch_eq]
  · intro client hass call hconn hdict heid
    cases client with
    | none => simp [isPanelConnected] at hconn
    | some c =>
      simp only [isPanelConnected] at hconn
      simp [service_sensor_bypass, hconn, hdict, heid, warnBranch_eq]
  · intro client hass call rawEid hconn hdict heid hvalid
    cases client with
    | none => simp [isPanelConnected] at hconn
    | some c =>
      simp only [isPanelConnected] at hconn
      simp [service_sensor_bypass, hconn, hdict, heid, hvalid, warnBranch_eq]

/-- Witness for C3 at concrete inputs: a required code missing on a
disarm, a bypass attempt with the panel in user-test mode, and a service
call whose data is not a dict, each raising the NameError. -/
theorem C3_warning_branches_raise_nameError_witness :
    (send_alarm_command demoClient "Disarm" "disarmed" none).1
      = Except.error (PyError.nameError "AvailableNotifications")
  ∧ (sensor_bypass { demoClient with getPanelStatusCode := some 6 } demoStates
        "binary_sensor.visonic_z01" false "").1
      = Except.error (PyError.nameError "AvailableNotifications")
  ∧ (service_sensor_bypass (some demoClient) demoHass
        { dataIsDict := false, data_entity_id := none, data_bypass := none,
          data_code := none, userId := none }).1
      = Except.error (PyError.nameError "AvailableNotifications") := by
  refine ⟨?_, ?_, ?_⟩
  · exact C3_warning_branches_raise_nameError.2.2.1 demoClient "Disarm" "disarmed" rfl
  · exact C3_warning_branches_raise_nameError.2.2.2.2.1
      { demoClient with getPanelStatusCode := some 6 } demoStates
      "binary_sensor.visonic_z01" false ""
      (by intro a ha; simp [demoClient] at ha; omega)
  · exact C3_warning_branches_raise_nameError.2.2.2.2.2.2.2.1 (some demoClient) demoHass
      { dataIsDict := false, data_entity_id := none, data_bypass := none,
        data_code := none, userId := none } rfl rfl

/-- The client methods called anywhere in alarm_control_panel.py, in order
of first appearance (lines 126, 162, 171, 174, 200, 236, 248, 249, 250,
270, 277, 312). -/
def clientMethodsCalled : List String :=
  ["isPanelConnected", "isArmWithoutCode", "isSirenActive", "getPanelStatusCode",
   "getPanelStatus", "isCodeRequired", "decode_code", "sendCommand",
   "createWarningMessage", "isArmHomeInstant", "isArmAwayInstant", "sendBypass"]

/-- The client methods the spec names individually in its interface
list. -/
def specNamedClientMethods : List String :=
  ["isPanelConnected", "getPanelStatusCode", "getPanelStatus", "sendCommand",
   "sendBypass", "isCodeRequired", "isArmWithoutCode", "decode_code",
   "createWarningMessage"]

/-- The remaining boolean siren and status query methods, covered by the
spec phrase "isSirenActial()/status query methods". -/
def sirenStatusQueryMethods : List String :=
  ["isSirenActive", "isArmHomeInstant", "isArmAwayInstant"]

/-- C6: every client method the adapter calls is either one of the methods
the spec names individually or one of the siren and status query
methods. -/
theorem C6_opaque_client_interface :
    clientMethodsCalled.all
      (fun m => specNamedClientMethods.contains m || sirenStatusQueryMethods.contains m)
      = true := by
  decide

end Visonic
